import Mathlib

/-!
Verification of the content-type merge engine (`src/lib/content-types/merge.js`).

The development shallowly embeds the merge engine: JavaScript values appearing
in configurations become the inductive `JSVal`; the objects the program reads
and writes (attributes, plugin templates, resolved attributes, content types)
become structures whose `Option` fields model property presence
(`hasOwnProperty`); the Promise executor with its `reject`/`resolve` calls and
possible thrown `TypeError`s becomes the state-with-failure monad `Exec`
(rejected errors accumulate in order, a thrown exception aborts execution and
is recorded as `none`).  The out-of-scope utility dependencies (lodash
`kebabCase`, the `deepmerge` package, the uuid generator) are modelled from
their contracts: `kebabCase` and `jsMerge` are given directly, and the
identifier generator is an injected `Nat → String` stream.
-/

set_option autoImplicit false

namespace ContentTypes

/-- JavaScript values as they occur in content-type configurations:
primitives, arrays, and plain objects (ordered field lists). -/
inductive JSVal where
  | undef
  | null
  | bool (b : Bool)
  | num (n : Int)
  | str (s : String)
  | arr (elems : List JSVal)
  | obj (fields : List (String × JSVal))

mutual

/-- Boolean equality on `JSVal` (JavaScript strict equality restricted to the
value domain of the embedding; object identity is out of scope, so object and
array comparison is structural and only used where the program never compares
objects). -/
def jbeq : JSVal → JSVal → Bool
  | JSVal.undef, JSVal.undef => true
  | JSVal.null, JSVal.null => true
  | JSVal.bool a, JSVal.bool b => a == b
  | JSVal.num a, JSVal.num b => a == b
  | JSVal.str a, JSVal.str b => a == b
  | JSVal.arr a, JSVal.arr b => jbeqList a b
  | JSVal.obj a, JSVal.obj b => jbeqFields a b
  | _, _ => false

/-- Elementwise `jbeq` on value lists. -/
def jbeqList : List JSVal → List JSVal → Bool
  | [], [] => true
  | x :: xs, y :: ys => jbeq x y && jbeqList xs ys
  | _, _ => false

/-- Elementwise `jbeq` on field lists. -/
def jbeqFields : List (String × JSVal) → List (String × JSVal) → Bool
  | [], [] => true
  | (k, v) :: xs, (l, w) :: ys => k == l && jbeq v w && jbeqFields xs ys
  | _, _ => false

end

instance : BEq JSVal := ⟨jbeq⟩

namespace JSVal

/-- JavaScript truthiness: `undefined`, `null`, `false`, `0` and the empty
string are falsy; every other value (arrays and objects included) is truthy. -/
def truthy : JSVal → Bool
  | undef => false
  | null => false
  | bool b => b
  | num n => n != 0
  | str s => s != ""
  | arr _ => true
  | obj _ => true

/-- `typeof v === 'string'`. -/
def isStr : JSVal → Bool
  | str _ => true
  | _ => false

/-- String conversion as performed by a template literal. -/
def display : JSVal → String
  | undef => "undefined"
  | null => "null"
  | bool b => cond b "true" "false"
  | num n => toString n
  | str s => s
  | arr _ => "[array]"
  | obj _ => "[object Object]"

end JSVal

/-- First value stored under a key in an ordered field list. -/
def lookupField : List (String × JSVal) → String → Option JSVal
  | [], _ => none
  | (k, v) :: rest, key => if k = key then some v else lookupField rest key

/-- Drop the entries stored under a key. -/
def removeField : List (String × JSVal) → String → List (String × JSVal)
  | [], _ => []
  | (k, v) :: rest, key =>
    if k = key then removeField rest key else (k, v) :: removeField rest key

mutual

/-- Model of the `deepmerge` dependency (out of scope per spec §1, consumed by
its contract): merging target `t` with source `s` concatenates two arrays,
recursively merges two plain objects, and otherwise lets the source win. -/
def jsMerge : JSVal → JSVal → JSVal
  | JSVal.arr t, JSVal.arr s => JSVal.arr (t ++ s)
  | JSVal.obj t, JSVal.obj s => JSVal.obj (jsMergeFields t s)
  | _, s => s

/-- Field-list merge: target keys (merged with the source's value when the
source also has the key) followed by the source's remaining keys. -/
def jsMergeFields : List (String × JSVal) → List (String × JSVal) → List (String × JSVal)
  | [], s => s
  | (k, tv) :: rest, s =>
    match lookupField s k with
    | none => (k, tv) :: jsMergeFields rest s
    | some sv => (k, jsMerge tv sv) :: jsMergeFields rest (removeField s k)

end

/-- `requiredLevel` (merge.js lines 16-25): normalize a configured `required`
value; `true`, `'save'` and `2` mean save, `'publish'` and `1` mean publish,
anything else yields the JavaScript value `false`. -/
def requiredLevel (level : JSVal) : JSVal :=
  if jbeq level (JSVal.bool true) || jbeq level (JSVal.str "save") || jbeq level (JSVal.num 2) then
    JSVal.str "save"
  else if jbeq level (JSVal.str "publish") || jbeq level (JSVal.num 1) then
    JSVal.str "publish"
  else
    JSVal.bool false

/-- The three-valued required level of the spec's data model (§3). -/
inductive RequiredLv where
  | noneLv
  | publishLv
  | saveLv
  deriving DecidableEq, Repr

/-- Reading of the engine's surface encoding of a required level: the string
`'save'` denotes save, `'publish'` denotes publish, every other value
(`false`, `undefined`, …) denotes the none level. -/
def levelDenote : JSVal → RequiredLv
  | JSVal.str "save" => RequiredLv.saveLv
  | JSVal.str "publish" => RequiredLv.publishLv
  | _ => RequiredLv.noneLv

/-- The required-level mapping exactly as the spec states it (§4.1):
`true | 'save' | 2 → save`; `'publish' | 1 → publish`; else `none`. -/
def specRequiredLevel (level : JSVal) : RequiredLv :=
  if jbeq level (JSVal.bool true) || jbeq level (JSVal.str "save") || jbeq level (JSVal.num 2) then
    RequiredLv.saveLv
  else if jbeq level (JSVal.str "publish") || jbeq level (JSVal.num 1) then
    RequiredLv.publishLv
  else
    RequiredLv.noneLv

/-- Character classes used by the kebab-case word splitter. -/
inductive CharKind where
  | lower
  | upper
  | digit
  | other
  deriving DecidableEq, Repr

/-- Classify one character. -/
def charKind (c : Char) : CharKind :=
  if c.isLower then CharKind.lower
  else if c.isUpper then CharKind.upper
  else if c.isDigit then CharKind.digit
  else CharKind.other

/-- One step of the word splitter: close the current word on a separator, at
an uppercase letter, and at letter/digit boundaries. -/
def kebabStep (acc : List String × String × CharKind) (c : Char) :
    List String × String × CharKind :=
  let (words, cur, prev) := acc
  match charKind c with
  | CharKind.other => (if cur = "" then words else words ++ [cur], "", CharKind.other)
  | CharKind.upper =>
    ((if cur = "" then words else words ++ [cur]), String.singleton c.toLower, CharKind.upper)
  | CharKind.digit =>
    if prev = CharKind.digit ∨ cur = "" then (words, cur.push c, CharKind.digit)
    else (words ++ [cur], String.singleton c, CharKind.digit)
  | CharKind.lower =>
    if prev = CharKind.digit ∧ cur ≠ "" then (words ++ [cur], String.singleton c, CharKind.lower)
    else (words, cur.push c, CharKind.lower)

/-- Model of lodash `kebabCase` (out of scope per spec §1, consumed by its
contract): split into words at separators, uppercase letters and letter/digit
boundaries, lowercase everything, join with hyphens. -/
def kebabCase (s : String) : String :=
  let (words, cur, _) := s.toList.foldl kebabStep ([], "", CharKind.other)
  String.intercalate "-" (if cur = "" then words else words ++ [cur])

/-- An input object (template entry, override, or resolved input).  Every
field is optional: `none` models an absent property (`hasOwnProperty` false),
`some v` a property holding the JavaScript value `v` (possibly `undefined`). -/
structure InputObj where
  type : Option JSVal := none
  validation : Option JSVal := none
  script : Option JSVal := none
  options : Option JSVal := none
  label : Option JSVal := none
  required : Option JSVal := none
  id : Option JSVal := none
  name : Option JSVal := none

/-- The value stored in an optional property, `undefined` when absent (reading
a missing property yields `undefined`). -/
def orUndef (o : Option JSVal) : JSVal := o.getD JSVal.undef

/-- One field of a deep merge of two objects: a key present on only one side
keeps its value, a key present on both is merged by `jsMerge`. -/
def mergeField (t s : Option JSVal) : Option JSVal :=
  match t, s with
  | none, none => none
  | some tv, none => some tv
  | none, some sv => some sv
  | some tv, some sv => some (jsMerge tv sv)

/-- Deep merge of two input objects, fieldwise (the `merge(plugin.inputs[attr],
attribute.inputs[attr])` call at merge.js line 128). -/
def inputMerge (t s : InputObj) : InputObj :=
  { type := mergeField t.type s.type
    validation := mergeField t.validation s.validation
    script := mergeField t.script s.script
    options := mergeField t.options s.options
    label := mergeField t.label s.label
    required := mergeField t.required s.required
    id := mergeField t.id s.id
    name := mergeField t.name s.name }

/-- Per-input override merge (merge.js lines 128-151): deep-merge the override
onto the template's input, reassert the template's `validation` and `type`
(unconditional assignments, so a template without the property yields a
property holding `undefined`), copy the template's `script` when the template
has one, let the override's `options` win when the override has one, then
normalize `required` when the merged object has it and otherwise inherit the
resolved attribute's `required`. -/
def mergedInput (attrRequired : JSVal) (tpl ov : InputObj) : InputObj :=
  let m0 := inputMerge tpl ov
  let m1 := { m0 with
    validation := some (orUndef tpl.validation)
    type := some (orUndef tpl.type) }
  let m2 := if tpl.script.isSome then { m1 with script := tpl.script } else m1
  let m3 := if ov.options.isSome then { m2 with options := ov.options } else m2
  match m3.required with
  | none => { m3 with required := some attrRequired }
  | some r => { m3 with required := some (requiredLevel r) }

/-- An attribute's `repeatable` property, restricted to the shapes the spec's
data model admits (§3): absent, a boolean, or an object with optional integer
`min` and `max`. -/
inductive RepAttr where
  | absent
  | boolean (b : Bool)
  | objSpec (min max : Option Int)
  deriving DecidableEq, Repr

/-- A content-type attribute as configured (spec §3 `Attribute`).  `id` and
`name` are `Option` because the program checks their presence; `required`
holds an arbitrary JavaScript value (`undefined` when absent). -/
structure Attribute where
  id : Option String := none
  type : String
  name : Option String := none
  description : Option String := none
  required : JSVal := JSVal.undef
  inputs : Option (List (String × InputObj)) := none
  repeatable : RepAttr := RepAttr.absent

/-- A plugin template from the catalog (spec §3 `PluginTemplate`). -/
structure PluginTemplate where
  name : String
  description : Option String := none
  required : JSVal := JSVal.undef
  inputs : List (String × InputObj)

/-- The `inputs` field of a resolved attribute: a single input map before
repeatable expansion, an ordered sequence of input maps after it
(merge.js line 197 assigns an array). -/
inductive ResolvedInputs where
  | single (m : List (String × InputObj))
  | repeated (ms : List (List (String × InputObj)))

/-- A resolved attribute (the `plugin` object built in merge.js lines 96-200):
the cloned template with overrides applied, the attribute's `id` and `type`,
resolved inputs and the normalized repeatable bounds when repeatable. -/
structure Plugin where
  name : String
  description : Option String
  required : JSVal
  id : Option String
  type : String
  inputs : ResolvedInputs
  repeatable : Option (Int × Int)

/-- Display of a possibly-missing string property in a template literal. -/
def displayOptStr : Option String → String
  | some s => s
  | none => "undefined"

/-- JavaScript strict equality between an attribute id (string property) and a
content type's `identifier` (arbitrary property): a string id equals a string
identifier with the same characters, and two absent properties are both
`undefined`, which are strictly equal. -/
def jsIdEq (id : Option String) (ident : Option JSVal) : Bool :=
  match id, ident with
  | some s, some (JSVal.str t) => s == t
  | none, none => true
  | _, _ => false

/-- First input stored under a key in an input map. -/
def lookupInput : List (String × InputObj) → String → Option InputObj
  | [], _ => none
  | (k, i) :: rest, key => if k = key then some i else lookupInput rest key

/-- Set the label of the first (sole) input to the plugin's display name
(merge.js lines 117-121, guarded by the map having exactly one key). -/
def setLabelFirst (inputs : List (String × InputObj)) (nm : String) :
    List (String × InputObj) :=
  match inputs with
  | [] => []
  | (k, i) :: rest => (k, { i with label := some (JSVal.str nm) }) :: rest

/-- Identity assignment (merge.js lines 157-160): every input receives a fresh
generated `id` and the derived name `attributeId--inputKey`; the generator
counter advances once per input, in key order. -/
def assignIds (gen : Nat → String) : Nat → String → List (String × InputObj) →
    List (String × InputObj) × Nat
  | c, _, [] => ([], c)
  | c, pid, (k, i) :: rest =>
    let i1 := { i with
      id := some (JSVal.str (gen c))
      name := some (JSVal.str (pid ++ "--" ++ k)) }
    let (rest1, c') := assignIds gen (c + 1) pid rest
    ((k, i1) :: rest1, c')

/-- Attribute resolution before repeatable expansion (merge.js lines 96-160):
clone the template, apply `name`/`description`/`required` overrides (the
`required` override only when the configured value is truthy), force `save`
when the attribute is the type's identifier, set `id` and `type` from the
attribute, default the sole input's label, apply per-input override merges,
and assign generated identities. -/
def resolveCore (gen : Nat → String) (c : Nat) (ident : Option JSVal)
    (tpl : PluginTemplate) (a : Attribute) : Plugin × Nat :=
  let name1 := match a.name with
    | some s => if s = "" then tpl.name else s
    | none => tpl.name
  let desc1 := match a.description with
    | some s => if s = "" then tpl.description else some s
    | none => tpl.description
  let req1 := if a.required.truthy then requiredLevel a.required else tpl.required
  let req2 := if jsIdEq a.id ident then JSVal.str "save" else req1
  let inputs1 := if tpl.inputs.length = 1 then setLabelFirst tpl.inputs name1 else tpl.inputs
  let inputs2 := match a.inputs with
    | none => inputs1
    | some ov =>
      inputs1.map fun kv =>
        match lookupInput ov kv.1 with
        | none => kv
        | some ovi => (kv.1, mergedInput req2 kv.2 ovi)
  let (inputs3, c') := assignIds gen c (displayOptStr a.id) inputs2
  (⟨name1, desc1, req2, a.id, a.type, ResolvedInputs.single inputs3, none⟩, c')

/-- `Number.MAX_SAFE_INTEGER`. -/
def maxSafeInteger : Int := 9007199254740991

/-- Repeatable-instance copy `i`: suffix the input's generated `id` and `name`
with `--i` (merge.js lines 192-193; the assignments are template literals, so
the results are strings). -/
def suffixInput (i : Nat) (inp : InputObj) : InputObj :=
  { inp with
    id := some (JSVal.str ((orUndef inp.id).display ++ "--" ++ toString i))
    name := some (JSVal.str ((orUndef inp.name).display ++ "--" ++ toString i)) }

/-- The expansion loop (merge.js lines 188-196): iteration `i` pushes a deep
copy of the resolved input map with every input's identity suffixed `--i`. -/
def expandLoop (base : List (String × InputObj)) : Nat → List (List (String × InputObj))
  | 0 => []
  | n + 1 => expandLoop base n ++ [base.map fun kv => (kv.1, suffixInput n kv.2)]

/-- Normalization of a `repeatable` specification (merge.js lines 163-185):
falsy values mean not repeatable; `true` means `min` 1 and `max`
`Number.MAX_SAFE_INTEGER`; an object fills absent `min` with 1 and absent
`max` with `Number.MAX_SAFE_INTEGER`. -/
def normalizeRep : RepAttr → Option (Int × Int)
  | RepAttr.absent => none
  | RepAttr.boolean false => none
  | RepAttr.boolean true => some (1, maxSafeInteger)
  | RepAttr.objSpec mn mx => some (mn.getD 1, mx.getD maxSafeInteger)

/-- The single input map underlying a resolved `inputs` field (expansion runs
once, on the single map produced by resolution, so the `repeated` case is
unreachable in the program's flow). -/
def baseOf : ResolvedInputs → List (String × InputObj)
  | ResolvedInputs.single m => m
  | ResolvedInputs.repeated _ => []

/-- Repeatable expansion (merge.js lines 162-198): when the attribute's
`repeatable` is truthy, record the normalized bounds and replace `inputs` by
the sequence of `min` suffixed copies. -/
def applyRepeatable (rep : RepAttr) (p : Plugin) : Plugin :=
  match normalizeRep rep with
  | none => p
  | some (mn, mx) =>
    { p with
      repeatable := some (mn, mx)
      inputs := ResolvedInputs.repeated (expandLoop (baseOf p.inputs) mn.toNat) }

/-- Full resolution of one attribute against its template (merge.js lines
96-200): core resolution followed by repeatable expansion. -/
def resolveAttr (gen : Nat → String) (c : Nat) (ident : Option JSVal)
    (tpl : PluginTemplate) (a : Attribute) : Plugin × Nat :=
  let (p, c') := resolveCore gen c ident tpl a
  (applyRepeatable a.repeatable p, c')

/-- The error kinds of spec §7, each carrying the identities interpolated into
the corresponding message of merge.js; `thrownTypeError` stands for a
JavaScript `TypeError` thrown by the executor rather than passed to
`reject`. -/
inductive Err where
  | NotAnArray
  | MissingIdentifierField (typeName : String)
  | InvalidIdentifierType (typeName : String)
  | PluginNotFound (attrType : String)
  | MissingAttributeName (shownId typeName : String)
  | MissingAttributeId (attrName typeName : String)
  | DuplicateAttributeId (id attrName typeName : String)
  | NonKebabCaseId (id kebab : String)
  | IdentifierNotAttribute (identifier typeName : String)
  | IdentifierMultipleInputs (identifier typeName : String)
  | IdentifierRepeatable (identifier typeName : String)
  | IdentifierHasOptions (identifier typeName : String)
  | thrownTypeError
  deriving DecidableEq, Repr

/-- Executor state: the errors passed to `reject` so far, in call order, and
the injected identifier generator's counter. -/
structure St where
  rejects : List Err
  fresh : Nat

/-- The Promise executor as a computation: state threading with a possible
thrown exception (`none`), which aborts execution but keeps the rejects
recorded so far. -/
def Exec (α : Type) : Type := St → St × Option α

instance : Monad Exec where
  pure a := fun st => (st, some a)
  bind m f := fun st =>
    match m st with
    | (st1, some a) => f a st1
    | (st1, none) => (st1, none)

/-- A `reject(new Error(...))` call: records the error and continues (a
settled Promise ignores later calls, so only the order is kept). -/
def reject (e : Err) : Exec Unit :=
  fun st => ({ st with rejects := st.rejects ++ [e] }, some ())

/-- A thrown `TypeError`: aborts the executor. -/
def crash {α : Type} : Exec α := fun st => (st, none)

/-- Read the identifier generator's counter. -/
def getFresh : Exec Nat := fun st => (st, some st.fresh)

/-- Advance the identifier generator's counter. -/
def setFresh (n : Nat) : Exec Unit := fun st => ({ st with fresh := n }, some ())

/-- The plugin catalog: a mapping from reserved-prefixed plugin-type names to
templates (the value `plugabilly(...).name().containsSync('input-plugin-')`
assembles in merge.js line 42; plugin discovery itself is out of scope per
spec §1, the core only reads the catalog by key). -/
def Catalog : Type := List (String × PluginTemplate)

/-- Keyed catalog access. -/
def lookupTpl : List (String × PluginTemplate) → String → Option PluginTemplate
  | [], _ => none
  | (k, t) :: rest, key => if k = key then some t else lookupTpl rest key

/-- The kebab-format check on a possibly-missing id: `slugify(attribute.id)
!== attribute.id` (merge.js line 91); for a missing id lodash stringifies
`undefined` to the empty string, which is not strictly equal to `undefined`. -/
def idKebabBad : Option String → Bool
  | none => true
  | some s => kebabCase s != s

/-- The kebab form interpolated into the non-kebab error message. -/
def kebabOpt : Option String → String
  | none => ""
  | some s => kebabCase s

/-- A content type's `attributes` field: the configured attribute list on
input, the resolved plugin list after merge.js line 225 assigns it. -/
inductive AttrList where
  | raw (attrs : List Attribute)
  | resolved (attrs : List Plugin)

/-- A content-type object as the caller supplies it (spec §3 `ContentType`);
`identifier` is optional because the program checks its presence. -/
structure ContentTypeObj where
  identifier : Option JSVal := none
  name : JSVal := JSVal.undef
  attributes : AttrList

/-- Validation and resolution of one attribute (merge.js lines 62-200):
the five ordered checks each `reject` on failure and execution continues;
the attribute's id is then recorded and the attribute is resolved against its
template.  When the template is missing, cloning yields `undefined` and the
first property assignment on it throws. -/
def processAttribute (gen : Nat → String) (plugins : Catalog) (t : ContentTypeObj)
    (ids : List (Option String)) (a : Attribute) : Exec (Plugin × List (Option String)) := do
  let key := "input-plugin-" ++ a.type
  if (lookupTpl plugins key).isNone then
    reject (Err.PluginNotFound a.type)
  if a.name.isNone then
    reject (Err.MissingAttributeName
      (match a.id with | some i => i | none => a.type) t.name.display)
  if a.id.isNone then
    reject (Err.MissingAttributeId (displayOptStr a.name) t.name.display)
  if ids.contains a.id then
    reject (Err.DuplicateAttributeId (displayOptStr a.id) (displayOptStr a.name) t.name.display)
  if idKebabBad a.id then
    reject (Err.NonKebabCaseId (displayOptStr a.id) (kebabOpt a.id))
  let ids1 := ids ++ [a.id]
  match lookupTpl plugins key with
  | none => crash
  | some tpl => do
    let c ← getFresh
    let r := resolveAttr gen c t.identifier tpl a
    setFresh r.2
    pure (r.1, ids1)

/-- The `types.map` body's inner `attributes.map` (merge.js line 62), with the
`ids` array threaded through in order. -/
def processAttrList (gen : Nat → String) (plugins : Catalog) (t : ContentTypeObj) :
    List Attribute → List (Option String) → Exec (List Plugin)
  | [], _ => pure []
  | a :: rest, ids => do
    let pr ← processAttribute gen plugins t ids a
    let ps ← processAttrList gen plugins t rest pr.2
    pure (pr.1 :: ps)

/-- `Object.keys(inputs).length` on a resolved `inputs` field (on an array the
keys are the indices). -/
def keysCount : ResolvedInputs → Nat
  | ResolvedInputs.single m => m.length
  | ResolvedInputs.repeated ms => ms.length

/-- `contender.inputs[Object.keys(contender.inputs)[0]].hasOwnProperty('options')`
(merge.js line 221): on an empty map or sequence the first key is `undefined`
and the property access throws (`none`); on a repeatable sequence the first
element is an inner input map, which has no `options` property. -/
def firstHasOptions : ResolvedInputs → Option Bool
  | ResolvedInputs.single [] => none
  | ResolvedInputs.single ((_, i) :: _) => some i.options.isSome
  | ResolvedInputs.repeated [] => none
  | ResolvedInputs.repeated (_ :: _) => some false

/-- The checks run on the located contender (merge.js lines 212-223): the
multiple-inputs, repeatable and options checks each reject and execution
continues past a rejection. -/
def contenderChecks (t : ContentTypeObj) (c : Plugin) : Exec Unit := do
  if keysCount c.inputs > 1 then
    reject (Err.IdentifierMultipleInputs (orUndef t.identifier).display t.name.display)
  if c.repeatable.isSome then
    reject (Err.IdentifierRepeatable (orUndef t.identifier).display t.name.display)
  match firstHasOptions c.inputs with
  | none => crash
  | some b =>
    if b then
      reject (Err.IdentifierHasOptions (orUndef t.identifier).display t.name.display)
    else
      pure ()

/-- The identifier constraint check (merge.js lines 203-223): locate the
attribute whose id equals the type's identifier; a missing contender rejects
and then throws on the next property access; otherwise the contender checks
run. -/
def identifierCheck (t : ContentTypeObj) (attrs : List Plugin) : Exec Unit := do
  match attrs.find? (fun p => jsIdEq p.id t.identifier) with
  | none => do
    reject (Err.IdentifierNotAttribute (orUndef t.identifier).display t.name.display)
    crash
  | some c => contenderChecks t c

/-- merge.js lines 49 and 225-227: `mergedType` aliases the caller's content
type object and `mergedType.attributes = attrs` assigns its field in place, so
this value is both the returned element and the post-call state of the
caller's object. -/
def mutateType (t : ContentTypeObj) (attrs : List Plugin) : ContentTypeObj :=
  { t with attributes := AttrList.resolved attrs }

/-- The identifier presence and type checks (merge.js lines 52-60): a missing
`identifier` property rejects, a present non-string `identifier` rejects;
execution continues either way. -/
def identifierPresenceChecks (t : ContentTypeObj) : Exec Unit := do
  if t.identifier.isNone then
    reject (Err.MissingIdentifierField t.name.display)
  match t.identifier with
  | some v =>
    if !v.isStr then reject (Err.InvalidIdentifierType t.name.display) else pure ()
  | none => pure ()

/-- Processing of one content type (merge.js lines 48-227): identifier
presence and type checks, attribute validation and resolution, the identifier
constraint check, then the in-place assignment of the resolved attributes. -/
def processType (gen : Nat → String) (plugins : Catalog) (t : ContentTypeObj) :
    Exec ContentTypeObj := do
  identifierPresenceChecks t
  match t.attributes with
  | AttrList.resolved _ => crash
  | AttrList.raw as => do
    let attrs ← processAttrList gen plugins t as []
    identifierCheck t attrs
    pure (mutateType t attrs)

/-- The `types` argument: an array of content types or any other JavaScript
value. -/
inductive TypesArg where
  | array (ts : List ContentTypeObj)
  | notArray (v : JSVal)

/-- The Promise executor of `squish` (merge.js lines 44-231): a non-array
`types` rejects and the subsequent `types.map` call throws; an array is mapped
over `processType` and the result resolved (`resolve` after a `reject` is a
no-op, which `runPromise` accounts for). -/
def squish (gen : Nat → String) (plugins : Catalog) : TypesArg → Exec (List ContentTypeObj)
  | TypesArg.notArray _ => do
    reject Err.NotAnArray
    crash
  | TypesArg.array ts => ts.mapM (processType gen plugins)

/-- The settled result of the returned Promise. -/
inductive Outcome (α : Type) where
  | resolved (v : α)
  | rejected (e : Err)

/-- The executor's initial state. -/
def initSt : St := ⟨[], 0⟩

/-- Settle a Promise executor: the first `reject` wins; with no reject, a
completed executor resolves and a thrown exception rejects with the thrown
`TypeError`. -/
def runPromise {α : Type} (m : Exec α) : Outcome α :=
  match m initSt with
  | (st, r) =>
    match st.rejects with
    | e :: _ => Outcome.rejected e
    | [] =>
      match r with
      | some v => Outcome.resolved v
      | none => Outcome.rejected Err.thrownTypeError

/-- `mergeContentTypes` at the caller's interface: the settled result of
`squish`. -/
def runSquish (gen : Nat → String) (plugins : Catalog) (ty : TypesArg) :
    Outcome (List ContentTypeObj) :=
  runPromise (squish gen plugins ty)

/-- All errors passed to `reject` during one `squish` call, in call order. -/
def runRejects (gen : Nat → String) (plugins : Catalog) (ty : TypesArg) : List Err :=
  (squish gen plugins ty initSt).1.rejects

/-- The contribution of the identifier constraint check alone to the settled
result: its first rejected error, `thrownTypeError` when it throws without
rejecting, `none` when it passes. -/
def checkOutcome (t : ContentTypeObj) (attrs : List Plugin) : Option Err :=
  match identifierCheck t attrs initSt with
  | (st, r) =>
    match st.rejects with
    | e :: _ => some e
    | [] =>
      match r with
      | some _ => none
      | none => some Err.thrownTypeError

/-- The contribution of the contender checks alone to the settled result,
in the same reading as `checkOutcome`. -/
def contenderOutcome (t : ContentTypeObj) (c : Plugin) : Option Err :=
  match contenderChecks t c initSt with
  | (st, r) =>
    match st.rejects with
    | e :: _ => some e
    | [] =>
      match r with
      | some _ => none
      | none => some Err.thrownTypeError

/-- "Its single resolved input declares `options`" (spec §4.6), read on the
resolved `inputs` field. -/
def specDeclaresOptions : ResolvedInputs → Bool
  | ResolvedInputs.single ((_, i) :: _) => i.options.isSome
  | _ => false

/-- The identifier constraint check exactly as the claim states it: missing
contender, then multiple inputs, then repeatable, then options, else pass. -/
def specIdentifierOutcome (t : ContentTypeObj) (attrs : List Plugin) : Option Err :=
  match attrs.find? (fun p => jsIdEq p.id t.identifier) with
  | none => some (Err.IdentifierNotAttribute (orUndef t.identifier).display t.name.display)
  | some c =>
    if keysCount c.inputs > 1 then
      some (Err.IdentifierMultipleInputs (orUndef t.identifier).display t.name.display)
    else if c.repeatable.isSome then
      some (Err.IdentifierRepeatable (orUndef t.identifier).display t.name.display)
    else if specDeclaresOptions c.inputs then
      some (Err.IdentifierHasOptions (orUndef t.identifier).display t.name.display)
    else
      none

/-- Discriminator for a content type's `attributes` field: `true` for the
configured attribute list, `false` once merge.js line 225 has replaced it with
the resolved plugin list. -/
def isRawAttrs : AttrList → Bool
  | AttrList.raw _ => true
  | AttrList.resolved _ => false

/-- A deterministic stub identifier generator (spec §9 recommends injecting
the generator; the contract only demands values that never repeat). -/
def gen0 : Nat → String := fun n => "uuid-" ++ toString n

/-- A single-input text plugin template, as in the end-to-end scenario of
spec §8. -/
def tplText : PluginTemplate :=
  { name := "Text"
    inputs := [("value",
      { type := some (JSVal.str "string")
        validation := some (JSVal.obj [("maxLength", JSVal.num 10)]) })] }

/-- A catalog holding the text plugin under its reserved-prefixed name. -/
def cat0 : Catalog := [("input-plugin-text", tplText)]

/-- The end-to-end content type of spec §8: one attribute `slug` of type
`text`, designated as the identifier. -/
def ct0 : ContentTypeObj :=
  { identifier := some (JSVal.str "slug")
    name := JSVal.str "Post"
    attributes := AttrList.raw [{ id := some "slug", type := "text", name := some "Slug" }] }

/-- A content type whose two attributes both fail validation (both lack a
`name`), while everything else about them is well-formed. -/
def ctBad : ContentTypeObj :=
  { identifier := some (JSVal.str "slug")
    name := JSVal.str "Post"
    attributes := AttrList.raw
      [{ id := some "slug", type := "text" },
       { id := some "title", type := "text" }] }

/-- The resolved attribute list `squish` produces for `ct0` under `gen0`. -/
def slugResolved : List Plugin :=
  [{ name := "Slug"
     description := none
     required := JSVal.str "save"
     id := some "slug"
     type := "text"
     inputs := ResolvedInputs.single [("value",
       { type := some (JSVal.str "string")
         validation := some (JSVal.obj [("maxLength", JSVal.num 10)])
         script := none
         options := none
         label := some (JSVal.str "Slug")
         required := none
         id := some (JSVal.str "uuid-0")
         name := some (JSVal.str "slug--value") })]
     repeatable := none }]

/-- An identifier attribute that declares `required: 'publish'`. -/
def attrSlugPub : Attribute :=
  { id := some "slug", type := "text", name := some "Slug", required := JSVal.str "publish" }

/-- A text plugin template whose default required level is `'publish'`. -/
def tplPub : PluginTemplate :=
  { name := "Text"
    required := JSVal.str "publish"
    inputs := [("value", { type := some (JSVal.str "string"), validation := some (JSVal.obj []) })] }

/-- An attribute that declares `required: false` explicitly. -/
def attrReqFalse : Attribute :=
  { id := some "summary", type := "text", name := some "Summary", required := JSVal.bool false }

/-- A template input that defines no `script`. -/
def tplInNoScript : InputObj :=
  { type := some (JSVal.str "string"), validation := some (JSVal.obj [("maxLength", JSVal.num 10)]) }

/-- An input override that supplies a `script`. -/
def ovScript : InputObj :=
  { script := some (JSVal.str "alert(1)") }

/-- An attribute with `repeatable: (min: 3, max: 5)`. -/
def attrRep : Attribute :=
  { id := some "tags", type := "text", name := some "Tags"
    repeatable := RepAttr.objSpec (some 3) (some 5) }

/-- An attribute with `repeatable: (min: 0)`. -/
def attrRep0 : Attribute :=
  { id := some "tags", type := "text", name := some "Tags"
    repeatable := RepAttr.objSpec (some 0) none }

/-- A resolved single-input, non-repeatable, option-free attribute named
`slug`, for exercising the identifier constraint check. -/
def plSlug : Plugin :=
  { name := "Slug"
    description := none
    required := JSVal.str "save"
    id := some "slug"
    type := "text"
    inputs := ResolvedInputs.single [("value", { type := some (JSVal.str "string") })]
    repeatable := none }

/-- The content-type header (identifier and name) used with `plSlug` when
exercising the identifier constraint check on already-resolved attributes. -/
def ctHeader : ContentTypeObj :=
  { identifier := some (JSVal.str "slug")
    name := JSVal.str "Post"
    attributes := AttrList.raw [] }

@[simp] theorem Exec.bind_apply {α β : Type} (m : Exec α) (f : α → Exec β) (st : St) :
    (m >>= f) st =
      match m st with
      | (st1, some a) => f a st1
      | (st1, none) => (st1, none) := rfl

@[simp] theorem Exec.pure_apply {α : Type} (a : α) (st : St) :
    (pure a : Exec α) st = (st, some a) := rfl

@[simp] theorem Exec.reject_apply (e : Err) (st : St) :
    reject e st = ({ st with rejects := st.rejects ++ [e] }, some ()) := rfl

@[simp] theorem Exec.crash_apply {α : Type} (st : St) :
    (crash : Exec α) st = (st, none) := rfl

@[simp] theorem Exec.ite_apply {α : Type} (P : Prop) [Decidable P] (m m' : Exec α) (st : St) :
    (if P then m else m') st = if P then m st else m' st := by
  split <;> rfl

/-- Inversion of a successful bind: the first computation completed and the
continuation ran from its state. -/
theorem Exec.bind_some_inv {α β : Type} {m : Exec α} {f : α → Exec β} {st st2 : St} {b : β}
    (h : (m >>= f) st = (st2, some b)) :
    ∃ a st1, m st = (st1, some a) ∧ f a st1 = (st2, some b) := by
  rcases hm : m st with ⟨st1, r⟩
  cases r with
  | none =>
    rw [Exec.bind_apply, hm] at h
    simp at h
  | some a =>
    rw [Exec.bind_apply, hm] at h
    exact ⟨a, st1, rfl, h⟩

/-- Repeatable expansion never touches the resolved `required` level. -/
theorem applyRepeatable_required (rep : RepAttr) (p : Plugin) :
    (applyRepeatable rep p).required = p.required := by
  unfold applyRepeatable
  cases h : normalizeRep rep with
  | none => rfl
  | some v => cases v; rfl

/-- The expansion loop produces exactly the indexed copies `0 … n-1`. -/
theorem expandLoop_eq_range (base : List (String × InputObj)) (n : Nat) :
    expandLoop base n =
      (List.range n).map fun i => base.map fun kv => (kv.1, suffixInput i kv.2) := by
  induction n with
  | zero => rfl
  | succ k ih => simp [expandLoop, List.range_succ, ih]

/-- With no contender, the identifier check settles on `IdentifierNotAttribute`
(the subsequent throw is masked by the earlier rejection). -/
theorem checkOutcome_none (t : ContentTypeObj) (attrs : List Plugin)
    (hf : attrs.find? (fun p => jsIdEq p.id t.identifier) = none) :
    checkOutcome t attrs
      = some (Err.IdentifierNotAttribute (orUndef t.identifier).display t.name.display) := by
  unfold checkOutcome identifierCheck
  rw [hf]
  simp [initSt]

/-- With a contender, the identifier check's settled contribution is that of
the contender checks. -/
theorem checkOutcome_some (t : ContentTypeObj) (attrs : List Plugin) (c : Plugin)
    (hf : attrs.find? (fun p => jsIdEq p.id t.identifier) = some c) :
    checkOutcome t attrs = contenderOutcome t c := by
  unfold checkOutcome contenderOutcome identifierCheck
  rw [hf]

/-- On a contender with at least one input entry, the contender checks settle
on the first applicable error of the multiple-inputs / repeatable / options
chain, and on success otherwise. -/
theorem contenderOutcome_eq (t : ContentTypeObj) (c : Plugin)
    (hc : 1 ≤ keysCount c.inputs) :
    contenderOutcome t c =
      (if keysCount c.inputs > 1 then
        some (Err.IdentifierMultipleInputs (orUndef t.identifier).display t.name.display)
      else if c.repeatable.isSome then
        some (Err.IdentifierRepeatable (orUndef t.identifier).display t.name.display)
      else if specDeclaresOptions c.inputs then
        some (Err.IdentifierHasOptions (orUndef t.identifier).display t.name.display)
      else none) := by
  unfold contenderOutcome contenderChecks
  rcases hinp : c.inputs with m | ms
  · cases m with
    | nil => rw [hinp] at hc; simp [keysCount] at hc
    | cons kv rest =>
      obtain ⟨k, i⟩ := kv
      simp only [keysCount, firstHasOptions, specDeclaresOptions]
      split_ifs <;> simp [initSt]
  · cases ms with
    | nil => rw [hinp] at hc; simp [keysCount] at hc
    | cons x xs =>
      simp only [keysCount, firstHasOptions, specDeclaresOptions]
      split_ifs <;> simp [initSt]

/-- C1: the claim says the first failing per-attribute validation aborts
processing of the content type, so no further attribute of that type is even
examined.  On `ctBad` — whose two attributes both lack a `name` — the executor
records the `MissingAttributeName` rejection for the first attribute and then
still validates and merges the second attribute, recording its rejection too;
only the Promise contract masks the second error, surfacing the first.  This
settles the claim against the code as written: validation is not fail-fast. -/
theorem c1_validation_continues_after_first_error :
    runRejects gen0 cat0 (TypesArg.array [ctBad]) =
      [Err.MissingAttributeName "slug" "Post", Err.MissingAttributeName "title" "Post"]
    ∧ runSquish gen0 cat0 (TypesArg.array [ctBad]) =
      Outcome.rejected (Err.MissingAttributeName "slug" "Post") :=
  ⟨rfl, rfl⟩

/-- C2 counterexample: the claim says the inputs are never mutated and the
output shares no structure with them.  But `mergedType` (merge.js line 49)
aliases the caller's object and line 225 assigns its `attributes` field in
place, so the resolved output element is `mutateType ct0 …` — the input object
itself, whose `attributes` field no longer holds the configured attribute list
it held before the call. -/
theorem c2_input_object_mutated_counterexample :
    runSquish gen0 cat0 (TypesArg.array [ct0]) = Outcome.resolved [mutateType ct0 slugResolved]
    ∧ isRawAttrs ((mutateType ct0 slugResolved).attributes) = false
    ∧ isRawAttrs ct0.attributes = true :=
  ⟨rfl, rfl, rfl⟩

/-- C2 amended: the plugin catalog is cloned before modification and never
mutated, but each successfully processed content type's output object is the
caller's input object mutated in place: its `identifier` and `name` fields are
preserved while its `attributes` field is replaced by the resolved attribute
list. -/
theorem c2_output_is_mutated_input : ∀ (gen : Nat → String) (plugins : Catalog)
    (t : ContentTypeObj) (st st1 : St) (out : ContentTypeObj),
    processType gen plugins t st = (st1, some out) →
    out.identifier = t.identifier ∧ out.name = t.name ∧ isRawAttrs out.attributes = false := by
  intro gen plugins t st st1 out h
  unfold processType at h
  obtain ⟨u1, stA, hA, h2⟩ := Exec.bind_some_inv h
  cases hattr : t.attributes with
  | resolved ps =>
    rw [hattr] at h2
    simp [crash] at h2
  | raw as =>
    rw [hattr] at h2
    obtain ⟨attrs, stC, hC, h4⟩ := Exec.bind_some_inv h2
    obtain ⟨u3, stD, hD, h5⟩ := Exec.bind_some_inv h4
    rw [Exec.pure_apply] at h5
    rw [Prod.mk.injEq] at h5
    obtain ⟨-, h6⟩ := h5
    cases h6
    simp [mutateType, isRawAttrs]

/-- C2 witness: the amended statement at the concrete §8 scenario. -/
theorem c2_output_is_mutated_input_witness :
    (mutateType ct0 slugResolved).identifier = ct0.identifier
    ∧ (mutateType ct0 slugResolved).name = ct0.name
    ∧ isRawAttrs (mutateType ct0 slugResolved).attributes = false :=
  c2_output_is_mutated_input gen0 cat0 ct0 initSt ⟨[], 1⟩ (mutateType ct0 slugResolved) rfl

/-- C3 counterexample: the claim says the resolved input has a `script`
exactly when the template defines one.  But when the template defines no
`script` and the override supplies one, the deep merge keeps the override's
`script` and the reassertion step (guarded on the template owning a `script`)
never removes it. -/
theorem c3_override_script_leaks_counterexample :
    tplInNoScript.script.isSome = false
    ∧ (mergedInput (JSVal.str "save") tplInNoScript ovScript).script.isSome = true :=
  ⟨rfl, rfl⟩

/-- C3 amended: in the per-input override merge, `validation` and `type` are
always the template's values (written back unconditionally, as a property
holding `undefined` when the template lacks them); `script` is the template's
when the template defines one, and otherwise the override's (the deep-merge
result leaks through); `options` is exactly the override's when the override
defines it, and the template's otherwise. -/
theorem c3_override_merge_precedence_amended : ∀ (r : JSVal) (tpl ov : InputObj),
    (mergedInput r tpl ov).validation = some (orUndef tpl.validation)
    ∧ (mergedInput r tpl ov).type = some (orUndef tpl.type)
    ∧ (mergedInput r tpl ov).script = (if tpl.script.isSome then tpl.script else ov.script)
    ∧ (mergedInput r tpl ov).options = (if ov.options.isSome then ov.options else tpl.options) := by
  intro r tpl ov
  obtain ⟨tt, tv, ts, topt, tl, tr, tid, tn⟩ := tpl
  obtain ⟨ot, ovv, os, oopt, ol, orq, oid, onn⟩ := ov
  cases ts <;> cases os <;> cases topt <;> cases oopt <;> cases tr <;> cases orq <;>
    simp [mergedInput, inputMerge, mergeField, orUndef]

/-- C4: an attribute whose id equals the content type's identifier resolves
with required level `'save'`, whatever the configured `required` was — the
forced assignment (merge.js lines 108-111) happens after the `required`
override and nothing later writes the field. -/
theorem c4_identifier_required_forced_save : ∀ (gen : Nat → String) (c : Nat)
    (ident : Option JSVal) (tpl : PluginTemplate) (a : Attribute),
    jsIdEq a.id ident = true →
    ((resolveAttr gen c ident tpl a).1).required = JSVal.str "save" := by
  intro gen c ident tpl a h
  have e1 : (resolveAttr gen c ident tpl a).1
      = applyRepeatable a.repeatable (resolveCore gen c ident tpl a).1 := rfl
  rw [e1, applyRepeatable_required]
  unfold resolveCore
  simp [h]

/-- C4 witness: the identifier attribute of the §8 scenario, configured with
`required: 'publish'`, still resolves to `'save'`. -/
theorem c4_identifier_required_forced_save_witness :
    ((resolveAttr gen0 0 (some (JSVal.str "slug")) tplText attrSlugPub).1).required
      = JSVal.str "save" :=
  c4_identifier_required_forced_save gen0 0 (some (JSVal.str "slug")) tplText attrSlugPub
    (by decide)

/-- C5: an attribute whose repeatable specification normalizes to bounds
`(min, max)` with `min ≥ 1` resolves with an `inputs` sequence of exactly
`min` copies of the resolved input map, copy `i` suffixing every input's
generated id and name with `--i` and being otherwise identical to the base
map, while the normalized bounds are retained on the attribute. -/
theorem c5_repeatable_expansion : ∀ (gen : Nat → String) (c : Nat)
    (ident : Option JSVal) (tpl : PluginTemplate) (a : Attribute) (mn mx : Int),
    normalizeRep a.repeatable = some (mn, mx) → 1 ≤ mn →
    ((resolveAttr gen c ident tpl a).1).inputs
      = ResolvedInputs.repeated ((List.range mn.toNat).map fun i =>
          (baseOf ((resolveCore gen c ident tpl a).1).inputs).map fun kv =>
            (kv.1, suffixInput i kv.2))
    ∧ ((resolveAttr gen c ident tpl a).1).repeatable = some (mn, mx)
    ∧ ((List.range mn.toNat).map fun i =>
          (baseOf ((resolveCore gen c ident tpl a).1).inputs).map fun kv =>
            (kv.1, suffixInput i kv.2)).length = mn.toNat := by
  intro gen c ident tpl a mn mx h hm
  have e1 : (resolveAttr gen c ident tpl a).1
      = applyRepeatable a.repeatable (resolveCore gen c ident tpl a).1 := rfl
  rw [e1]
  unfold applyRepeatable
  rw [h]
  simp [expandLoop_eq_range]

/-- C5 witness: the `repeatable: (min: 3, max: 5)` attribute of spec §8
expands to three suffixed copies with the bounds retained. -/
theorem c5_repeatable_expansion_witness :
    ((resolveAttr gen0 0 (some (JSVal.str "slug")) tplText attrRep).1).inputs
      = ResolvedInputs.repeated ((List.range (Int.toNat 3)).map fun i =>
          (baseOf ((resolveCore gen0 0 (some (JSVal.str "slug")) tplText attrRep).1).inputs).map
            fun kv => (kv.1, suffixInput i kv.2))
    ∧ ((resolveAttr gen0 0 (some (JSVal.str "slug")) tplText attrRep).1).repeatable
        = some (3, 5)
    ∧ ((List.range (Int.toNat 3)).map fun i =>
          (baseOf ((resolveCore gen0 0 (some (JSVal.str "slug")) tplText attrRep).1).inputs).map
            fun kv => (kv.1, suffixInput i kv.2)).length = Int.toNat 3 :=
  c5_repeatable_expansion gen0 0 (some (JSVal.str "slug")) tplText attrRep 3 5 rfl (by decide)

/-- C6: on attributes whose resolved `inputs` fields are nonempty, the
identifier constraint check settles exactly as the claim orders it: missing
contender yields `IdentifierNotAttribute`; otherwise more than one input entry
yields `IdentifierMultipleInputs`; otherwise a present `repeatable` field
yields `IdentifierRepeatable`; otherwise a sole input declaring `options`
yields `IdentifierHasOptions`; otherwise the check passes. -/
theorem c6_identifier_constraint_check : ∀ (t : ContentTypeObj) (attrs : List Plugin),
    (∀ p ∈ attrs, 1 ≤ keysCount p.inputs) →
    checkOutcome t attrs = specIdentifierOutcome t attrs := by
  intro t attrs hmin
  cases hf : attrs.find? (fun p => jsIdEq p.id t.identifier) with
  | none =>
    rw [checkOutcome_none t attrs hf]
    unfold specIdentifierOutcome
    rw [hf]
  | some c =>
    have hc : 1 ≤ keysCount c.inputs := hmin c (List.mem_of_find?_eq_some hf)
    rw [checkOutcome_some t attrs c hf, contenderOutcome_eq t c hc]
    unfold specIdentifierOutcome
    rw [hf]

/-- C6 witness: the check at a concrete single-input, non-repeatable,
option-free contender. -/
theorem c6_identifier_constraint_check_witness :
    checkOutcome ctHeader [plSlug] = specIdentifierOutcome ctHeader [plSlug] :=
  c6_identifier_constraint_check ctHeader [plSlug] (by decide)

/-- C7: the required-level normalizer is total by construction, and under the
spec's reading of its output encoding it realizes exactly the claimed mapping:
`true`, `'save'` and `2` to save; `'publish'` and `1` to publish; every other
value (`false` and `undefined` included) to none. -/
theorem c7_required_level_normalizer : ∀ v : JSVal,
    levelDenote (requiredLevel v) = specRequiredLevel v := by
  intro v
  unfold requiredLevel specRequiredLevel
  split_ifs <;> rfl

/-- C8 counterexample: the claim says `required: false` resolves to the none
level.  With a template whose default is `'publish'`, an attribute declaring
`required: false` resolves to `'publish'` — the falsy declared value is
ignored (merge.js line 104 tests truthiness) and the template default is
inherited. -/
theorem c8_required_false_counterexample :
    attrReqFalse.required = JSVal.bool false
    ∧ ((resolveAttr gen0 0 (some (JSVal.str "slug")) tplPub attrReqFalse).1).required
        = JSVal.str "publish"
    ∧ levelDenote (JSVal.str "publish") ≠ RequiredLv.noneLv :=
  ⟨rfl, rfl, by decide⟩

/-- C8 amended: a non-identifier attribute whose declared `required` is not
truthy (so in particular `required: false`) inherits the template's default
required level unchanged; the declared value is normalized only when truthy. -/
theorem c8_required_false_inherits_template : ∀ (gen : Nat → String) (c : Nat)
    (ident : Option JSVal) (tpl : PluginTemplate) (a : Attribute),
    a.required.truthy = false → jsIdEq a.id ident = false →
    ((resolveAttr gen c ident tpl a).1).required = tpl.required := by
  intro gen c ident tpl a h1 h2
  have e1 : (resolveAttr gen c ident tpl a).1
      = applyRepeatable a.repeatable (resolveCore gen c ident tpl a).1 := rfl
  rw [e1, applyRepeatable_required]
  unfold resolveCore
  simp [h1, h2]

/-- C8 witness: the amended statement at the concrete `required: false`
attribute and `'publish'`-default template. -/
theorem c8_required_false_inherits_template_witness :
    ((resolveAttr gen0 0 (some (JSVal.str "slug")) tplPub attrReqFalse).1).required
      = tplPub.required :=
  c8_required_false_inherits_template gen0 0 (some (JSVal.str "slug")) tplPub attrReqFalse
    rfl (by decide)

/-- C9: a non-array `types` value always settles the returned Promise on the
`NotAnArray` rejection — the executor rejects first and the `TypeError` thrown
by the subsequent `types.map` access is masked by the earlier rejection — and
no resolved output is produced. -/
theorem c9_not_array_rejects : ∀ (gen : Nat → String) (plugins : Catalog) (v : JSVal),
    runSquish gen plugins (TypesArg.notArray v) = Outcome.rejected Err.NotAnArray := by
  intro gen plugins v
  rfl

/-- C10: an attribute whose `repeatable` object declares `min: 0` resolves
with an empty `inputs` sequence — the zero is honored literally, the
expansion loop runs no iterations. -/
theorem c10_repeatable_min_zero_empty : ∀ (gen : Nat → String) (c : Nat)
    (ident : Option JSVal) (tpl : PluginTemplate) (a : Attribute) (mx : Option Int),
    a.repeatable = RepAttr.objSpec (some 0) mx →
    ((resolveAttr gen c ident tpl a).1).inputs = ResolvedInputs.repeated [] := by
  intro gen c ident tpl a mx h
  have e1 : (resolveAttr gen c ident tpl a).1
      = applyRepeatable a.repeatable (resolveCore gen c ident tpl a).1 := rfl
  rw [e1]
  unfold applyRepeatable
  rw [h]
  rfl

/-- C10 witness: the `repeatable: (min: 0)` attribute yields an empty inputs
sequence. -/
theorem c10_repeatable_min_zero_empty_witness :
    ((resolveAttr gen0 0 (some (JSVal.str "slug")) tplText attrRep0).1).inputs
      = ResolvedInputs.repeated [] :=
  c10_repeatable_min_zero_empty gen0 0 (some (JSVal.str "slug")) tplText attrRep0 none rfl

end ContentTypes
